import Mathlib

/-!
Verification of the Savezy backend authentication core against its design
specification.  The Lean definitions below are shallow embeddings of the
Python source:

* `generate_jwt`, `decode_jwt`, `refresh_jwt`, `token_required` embed
  `app/utils/jwt_helper.py`.  JWT tokens are modelled symbolically: a token
  is either a payload signed with some secret, or a malformed blob.  The
  expiry rule of `jwt.decode` follows PyJWT/RFC 7519: a token is rejected
  when `exp <= now` (leeway 0), i.e. "on or after" the expiration time.
* `google_init` (the `begin` operation), `redeemState` (the state-token
  validation block of `google_callback`, lines 85-94), the user upsert
  block of `google_callback` / `google_verify`, and the exception handlers
  of `google_callback` (lines 183-186) embed `app/api/auth/routes.py`.
* `APIKeyRec` embeds the `APIKey` model of `app/models.py`.

Times are integer seconds (`Nat`).  The mutable `state_store` dict is an
association list with dict-faithful lookup/insert/delete.  The
`Authorization` header is a `List Char` so that Python's
`str.replace('Bearer ', '')` can be embedded verbatim as `replaceAll`.
-/

/-- Payload carried by a session token, as built by `generate_jwt`:
`{'user_id': ..., 'email': ..., 'iat': ..., 'exp': ...}`. -/
structure JwtPayload where
  user_id : Nat
  email : String
  iat : Nat
  exp : Nat
deriving DecidableEq, Repr

/-- A JWT on the wire: either a structurally well-formed token whose
signature was produced with `secret`, or a malformed blob. -/
inductive Token where
  | signed (payload : JwtPayload) (secret : String)
  | malformed (raw : String)
deriving DecidableEq, Repr

/-- `generate_jwt` (jwt_helper.py lines 13-23): payload with `iat = now`
and `exp = now + ttl`, signed with the configured secret.  `ttl` stands
for `timedelta(hours=JWT_EXP_HOURS)` in seconds. -/
def generate_jwt (secret : String) (ttl now : Nat) (user_id : Nat) (email : String) : Token :=
  Token.signed ⟨user_id, email, now, now + ttl⟩ secret

/-- `decode_jwt` (jwt_helper.py lines 26-34): `jwt.decode` verifies the
signature and the `exp` claim; `ExpiredSignatureError` and
`InvalidTokenError` are both mapped to `None`.  PyJWT raises
`ExpiredSignatureError` when `exp <= now` (leeway 0). -/
def decode_jwt (secret : String) (now : Nat) (t : Token) : Option JwtPayload :=
  match t with
  | Token.malformed _ => none
  | Token.signed p s =>
      if s = secret then
        if p.exp ≤ now then none else some p
      else none

/-- The signature/structure check of `jwt.decode(..., options={"verify_exp": False})`
used by `refresh_jwt` (jwt_helper.py line 41): expiry is not consulted. -/
def decode_jwt_noexp (secret : String) (t : Token) : Option JwtPayload :=
  match t with
  | Token.malformed _ => none
  | Token.signed p s => if s = secret then some p else none

/-- `refresh_jwt` (jwt_helper.py lines 37-47): decode without expiry
verification, then re-mint with the same `user_id`/`email`. -/
def refresh_jwt (secret : String) (ttl now : Nat) (t : Token) : Option Token :=
  match decode_jwt_noexp secret t with
  | none => none
  | some p => some (generate_jwt secret ttl now p.user_id p.email)

/-- Row of the `APIKey` table (models.py lines 200-213). -/
structure APIKeyRec where
  id : Nat
  key : String
  user_id : Nat
  is_active : Bool
deriving DecidableEq, Repr

/-- Python's `s.replace(pat, rep)` on character lists: every
non-overlapping occurrence of `pat`, scanned left to right, is replaced
by `rep`. -/
def replaceAll (pat rep : List Char) : List Char → List Char
  | [] => []
  | c :: rest =>
      if h : pat ≠ [] ∧ pat.isPrefixOf (c :: rest) then
        rep ++ replaceAll pat rep ((c :: rest).drop pat.length)
      else
        c :: replaceAll pat rep rest
  termination_by s => s.length
  decreasing_by
    · have hlen : 0 < pat.length := List.length_pos.mpr h.1
      simp only [List.length_drop, List.length_cons]
      omega
    · simp

/-- The characters of the string `'Bearer '` deleted by the gate. -/
def bearerChars : List Char := "Bearer ".data

/-- The bearer-credential extraction of `token_required`
(jwt_helper.py line 67): `request.headers['Authorization'].replace('Bearer ', '')`. -/
def extractBearerToken (header : List Char) : List Char :=
  replaceAll bearerChars [] header

/-- Whether `pat` occurs as a contiguous substring of `s`. -/
def occursIn (pat : List Char) : List Char → Bool
  | [] => pat.isPrefixOf []
  | c :: rest => pat.isPrefixOf (c :: rest) || occursIn pat rest

/-- The inbound request as seen by `token_required`: the two credential
headers. -/
structure GateRequest where
  xApiKey : Option String
  authorization : Option (List Char)

/-- Outcome of the `token_required` decorator: invoke the wrapped route
with the API-key record, invoke it with the decoded JWT payload, or
return an error response with an HTTP status. -/
inductive GateOutcome where
  | apiKeyPrincipal (key : APIKeyRec)
  | tokenPrincipal (payload : JwtPayload)
  | err (status : Nat) (msg : String)
deriving DecidableEq, Repr

/-- `APIKey.query.filter_by(key=token).first()` over the table rows:
first row whose `key` column equals the presented value.  No condition
on `is_active` appears in the source query. -/
def apiKeyLookup (db : List APIKeyRec) (token : String) : Option APIKeyRec :=
  db.find? (fun r => r.key = token)

/-- `token_required` (jwt_helper.py lines 50-79).  `dec` is the
string-level JWT verifier (`decode_jwt` with its secret and the current
clock fixed, composed with wire parsing). -/
def token_required (db : List APIKeyRec) (dec : List Char → Option JwtPayload)
    (req : GateRequest) : GateOutcome :=
  match req.xApiKey with
  | some tok =>
      match apiKeyLookup db tok with
      | none => GateOutcome.err 401 "Invalid API key"
      | some key => GateOutcome.apiKeyPrincipal key
  | none =>
      let token : List Char :=
        match req.authorization with
        | some h => extractBearerToken h
        | none => []
      if token = [] then GateOutcome.err 401 "Token is missing"
      else
        match dec token with
        | none => GateOutcome.err 401 "Token is invalid or expired"
        | some payload => GateOutcome.tokenPrincipal payload

/-! ## OAuth state cache (`state_store` in `app/api/auth/routes.py`) -/

/-- The module-level `state_store` dict, as an association list.  Python
dict semantics: lookup returns the binding for a key, assignment of a
fresh random token prepends a binding, `del` removes the key's binding. -/
abbrev StateStore := List (String × String)

/-- `state_token in state_store` / `state_store.get(state_token)`. -/
def storeLookup (store : StateStore) (state : String) : Option String :=
  (store.find? (fun p => p.1 = state)).map Prod.snd

/-- `del state_store[state_token]`. -/
def storeDelete (store : StateStore) (state : String) : StateStore :=
  store.filter (fun p => p.1 ≠ state)

/-- Result of `google_init` (the spec's `begin`): an error response, or
the updated store together with the state token embedded in the returned
auth URL. -/
inductive BeginResult where
  | rejected (store : StateStore) (status : Nat) (msg : String)
  | ok (store : StateStore) (state_token : String)
deriving DecidableEq, Repr

/-- Python's `s.split(',')` on character lists: split at every comma;
the empty string yields `['']`. -/
def splitComma : List Char → List (List Char)
  | [] => [[]]
  | c :: rest =>
      if c = ',' then [] :: splitComma rest
      else
        match splitComma rest with
        | [] => [[c]]
        | g :: gs => (c :: g) :: gs

/-- `ALLOWED_MOBILE_REDIRECT_URIS` parsing (routes.py lines 28, 98):
`os.getenv(..., '').split(',')`. -/
def allowedUris (env : String) : List (List Char) :=
  splitComma env.data

/-- `google_init` (routes.py lines 22-49).  `env` is the raw
`ALLOWED_MOBILE_REDIRECT_URIS` value; `state_token` stands for the fresh
`secrets.token_urlsafe(32)` value; `redirect_uri` is the query parameter
(`none` when absent, and Python treats the empty string as missing too
via `if not mobile_redirect_uri`). -/
def google_init (env : String) (state_token : String) (store : StateStore)
    (redirect_uri : Option String) : BeginResult :=
  match redirect_uri with
  | none => BeginResult.rejected store 400 "redirect_uri is required"
  | some uri =>
      if uri = "" then BeginResult.rejected store 400 "redirect_uri is required"
      else if uri.data ∉ allowedUris env then
        BeginResult.rejected store 400 "Invalid redirect_uri"
      else
        BeginResult.ok ((state_token, uri) :: store) state_token

/-- Result of the state-validation block of `google_callback`:
an error response (store unchanged), or control passes on with the entry
consumed. -/
inductive RedeemResult where
  | rejected (store : StateStore) (status : Nat) (msg : String)
  | ok (store : StateStore)
deriving DecidableEq, Repr

/-- The `redeem` operation: the state-token validation block of
`google_callback` (routes.py lines 85-94).  Membership check, stored
target comparison, then `del` on success. -/
def redeemState (store : StateStore) (state_token redirect_uri : String) : RedeemResult :=
  match storeLookup store state_token with
  | none => RedeemResult.rejected store 400 "Invalid or expired state token"
  | some stored =>
      if stored ≠ redirect_uri then
        RedeemResult.rejected store 400 "redirect_uri does not match state"
      else
        RedeemResult.ok (storeDelete store state_token)

/-- Whether a redeem attempt was rejected. -/
def RedeemResult.isRejected : RedeemResult → Bool
  | RedeemResult.rejected _ _ _ => true
  | RedeemResult.ok _ => false

/-- The store left behind by a redeem attempt. -/
def RedeemResult.store : RedeemResult → StateStore
  | RedeemResult.rejected s _ _ => s
  | RedeemResult.ok s => s

/-- The store left behind by a begin attempt. -/
def BeginResult.store : BeginResult → StateStore
  | BeginResult.rejected s _ _ => s
  | BeginResult.ok s _ => s

/-- Whether a begin attempt was rejected, and with which status. -/
def BeginResult.isRejectedWith (r : BeginResult) (status : Nat) : Bool :=
  match r with
  | BeginResult.rejected _ st _ => st = status
  | BeginResult.ok _ _ => false

/-! ## Principal upsert (`google_callback` lines 148-159, `google_verify`
lines 306-315) -/

/-- Row of the `users` table (models.py lines 15-53): numeric primary
key, unique email, nullable display name. -/
structure UserRec where
  id : Nat
  email : String
  name : Option String
deriving DecidableEq, Repr

/-- The `users` table plus its autoincrement counter. -/
structure UserDB where
  users : List UserRec
  nextId : Nat
deriving DecidableEq, Repr

/-- Update the first row matching `p` in place, as SQLAlchemy does with
the row object returned by `.first()`. -/
def updateFirst (p : UserRec → Bool) (f : UserRec → UserRec) : List UserRec → List UserRec
  | [] => []
  | u :: rest => if p u then f u :: rest else u :: updateFirst p f rest

/-- The get-or-create-by-email block shared by `google_callback`
(routes.py lines 148-159) and `google_verify` (lines 306-315):
`User.query.filter_by(email=email).first()`; create `User(email, name)`
if absent, else assign `user.name = name`.  Returns the committed
database and the `user` object the handler goes on to use. -/
def upsert_user (db : UserDB) (email : String) (name : Option String) : UserDB × UserRec :=
  match db.users.find? (fun u => u.email = email) with
  | none =>
      let u : UserRec := ⟨db.nextId, email, name⟩
      (⟨db.users ++ [u], db.nextId + 1⟩, u)
  | some u =>
      let u' : UserRec := ⟨u.id, u.email, name⟩
      (⟨updateFirst (fun v => v.email = email) (fun v => ⟨v.id, v.email, name⟩) db.users,
        db.nextId⟩, u')

/-! ## Exception handlers of `google_callback` (routes.py lines 183-186) -/

/-- The exception reaching the outer `try` of `google_callback`:
a `requests.RequestException` (network-level failure talking to Google)
or any other `Exception`.  The carried string is `str(e)`. -/
inductive CallbackException where
  | requestException (msg : String)
  | otherException (msg : String)
deriving DecidableEq, Repr

/-- A JSON error body `{'error': ..., 'details': ...}`; `details` is
`none` when the key is absent from the payload. -/
structure ErrorBody where
  error : String
  details : Option String
deriving DecidableEq, Repr

/-- The two `except` clauses of `google_callback` (routes.py lines
183-186): `requests.RequestException` is matched first, everything else
falls to the generic handler; both attach `'details': str(e)`. -/
def google_callback_handle_exception (e : CallbackException) : ErrorBody × Nat :=
  match e with
  | CallbackException.requestException msg => (⟨"Network error occurred", some msg⟩, 500)
  | CallbackException.otherException msg => (⟨"Internal server error", some msg⟩, 500)

/-! ## Claims about the credential codec -/

/-- C5: verifying a freshly minted token returns the same `user_id` and
`email` claims whenever the current time is within the ttl window
(`now < mint + ttl`), and returns `none` at or after expiry
(`mint + ttl ≤ now`). -/
theorem mint_verify_roundtrip (secret : String) (ttl mintTime now : Nat)
    (uid : Nat) (email : String) :
    (now < mintTime + ttl →
      decode_jwt secret now (generate_jwt secret ttl mintTime uid email) =
        some ⟨uid, email, mintTime, mintTime + ttl⟩)
    ∧ (mintTime + ttl ≤ now →
      decode_jwt secret now (generate_jwt secret ttl mintTime uid email) = none) := by
  constructor
  · intro h
    simp [decode_jwt, generate_jwt, Nat.not_le.mpr h]
  · intro h
    simp [decode_jwt, generate_jwt, h]

/-- Witness for C5 at a concrete token: accepted at time 5 of a
`[0, 10)` window, rejected exactly at expiry time 10. -/
theorem mint_verify_roundtrip_witness :
    decode_jwt "s" 5 (generate_jwt "s" 10 0 1 "a@b.c") = some ⟨1, "a@b.c", 0, 10⟩ ∧
    decode_jwt "s" 10 (generate_jwt "s" 10 0 1 "a@b.c") = none :=
  ⟨(mint_verify_roundtrip "s" 10 0 5 1 "a@b.c").1 (by decide),
   (mint_verify_roundtrip "s" 10 0 10 1 "a@b.c").2 (by decide)⟩

/-- C6: `refresh_jwt` succeeds on every structurally valid token signed
with the configured secret — including one whose expiry is in the past —
returning a token with the same `user_id`/`email` and a fresh window
whose expiry `now + ttl` lies strictly in the future; it returns `none`
exactly on malformed input or a signature made with a different secret. -/
theorem refresh_semantics (secret : String) (ttl now : Nat) (httl : 0 < ttl) :
    (∀ p : JwtPayload,
        refresh_jwt secret ttl now (Token.signed p secret) =
          some (Token.signed ⟨p.user_id, p.email, now, now + ttl⟩ secret)
        ∧ now < now + ttl)
    ∧ (∀ raw, refresh_jwt secret ttl now (Token.malformed raw) = none)
    ∧ (∀ p s, s ≠ secret → refresh_jwt secret ttl now (Token.signed p s) = none) := by
  refine ⟨fun p => ⟨?_, ?_⟩, fun raw => rfl, fun p s hs => ?_⟩
  · simp [refresh_jwt, decode_jwt_noexp, generate_jwt]
  · omega
  · simp [refresh_jwt, decode_jwt_noexp, hs]

/-- Witness for C6: a token expired long ago (window `[0, 10)`, clock at
100) refreshes to a fresh `[100, 110)` token with the same claims; the
same payload signed with the wrong secret is rejected. -/
theorem refresh_semantics_witness :
    refresh_jwt "s" 10 100 (Token.signed ⟨1, "a@b.c", 0, 10⟩ "s") =
      some (Token.signed ⟨1, "a@b.c", 100, 110⟩ "s") ∧
    refresh_jwt "s" 10 100 (Token.signed ⟨1, "a@b.c", 0, 10⟩ "bad") = none :=
  ⟨((refresh_semantics "s" 10 100 (by decide)).1 ⟨1, "a@b.c", 0, 10⟩).1,
   (refresh_semantics "s" 10 100 (by decide)).2.2 ⟨1, "a@b.c", 0, 10⟩ "bad" (by decide)⟩

/-! ## Claims about the authorization gate -/

/-- C2 (code bug): the gate's API-key branch queries
`filter_by(key=token)` with no condition on `is_active`, so a request
presenting a key whose stored record has `is_active = false` is NOT
rejected with 401: the wrapped route is invoked with the inactive key's
record as principal. -/
theorem inactive_key_accepted :
    token_required [⟨1, "sk_live_1", 7, false⟩] (fun _ => none)
      ⟨some "sk_live_1", none⟩ =
      GateOutcome.apiKeyPrincipal ⟨1, "sk_live_1", 7, false⟩ ∧
    (⟨1, "sk_live_1", 7, false⟩ : APIKeyRec).is_active = false := by
  constructor
  · rfl
  · rfl

/-! ## Claims about the `google_callback` exception handlers -/

/-- C8 counterexample: for the concrete network failure whose
`str(e)` is `"connection refused"`, the 500 response body of
`google_callback` carries that internal exception detail in its
`details` field — the payload is not free of exception detail. -/
theorem network_error_leaks_details :
    (google_callback_handle_exception
        (CallbackException.requestException "connection refused")).1.details =
      some "connection refused" := rfl

/-- C8 amended: every network-level failure and every unexpected fault
in `google_callback` yields a 500 whose `error` field is a fixed generic
message, but whose `details` field carries the exception's string
representation verbatim. -/
theorem callback_exception_response_shape (e : CallbackException) :
    (google_callback_handle_exception e).2 = 500 ∧
    ((google_callback_handle_exception e).1.error = "Network error occurred" ∨
      (google_callback_handle_exception e).1.error = "Internal server error") ∧
    ((google_callback_handle_exception e).1.details =
      some (match e with
            | CallbackException.requestException m => m
            | CallbackException.otherException m => m)) := by
  cases e with
  | requestException m => exact ⟨rfl, Or.inl rfl, rfl⟩
  | otherException m => exact ⟨rfl, Or.inr rfl, rfl⟩

/-- C1: strict credential-resolution order of `token_required`.  When an
`X-Api-Key` header is present the outcome is decided solely by the
API-key lookup (lookup failure yields 401, success passes the key's
record downstream) and is independent of the `Authorization` header;
otherwise, a nonempty extracted bearer credential is decided solely by
token verification; otherwise the request is rejected 401 with the
missing-credential message. -/
theorem gate_credential_order (db : List APIKeyRec)
    (dec : List Char → Option JwtPayload) (req : GateRequest) :
    (∀ k, req.xApiKey = some k →
      (∀ a, token_required db dec { req with authorization := a } =
              token_required db dec req)
      ∧ (apiKeyLookup db k = none →
          token_required db dec req = GateOutcome.err 401 "Invalid API key")
      ∧ (∀ r, apiKeyLookup db k = some r →
          token_required db dec req = GateOutcome.apiKeyPrincipal r))
    ∧ (req.xApiKey = none → ∀ h, req.authorization = some h →
        extractBearerToken h ≠ [] →
        token_required db dec req =
          (match dec (extractBearerToken h) with
           | none => GateOutcome.err 401 "Token is invalid or expired"
           | some p => GateOutcome.tokenPrincipal p))
    ∧ (req.xApiKey = none →
        (req.authorization = none ∨
          (∃ h, req.authorization = some h ∧ extractBearerToken h = [])) →
        token_required db dec req = GateOutcome.err 401 "Token is missing") := by
  obtain ⟨x, a⟩ := req
  refine ⟨fun k hk => ?_, fun hx h ha hne => ?_, fun hx hcase => ?_⟩
  · cases hk
    refine ⟨fun a' => rfl, fun hnone => ?_, fun r hr => ?_⟩
    · simp [token_required, hnone]
    · simp [token_required, hr]
  · cases hx
    cases ha
    simp only [token_required, if_neg hne]
  · cases hx
    rcases hcase with hnone | ⟨h, ha, he⟩
    · cases hnone
      rfl
    · cases ha
      simp [token_required, he]

/-- Witness for C1: with both headers supplied, the request is resolved
by the API-key branch alone; with neither, it is rejected as missing. -/
theorem gate_credential_order_witness :
    token_required [⟨1, "sk_w", 7, true⟩] (fun _ => none)
      ⟨some "sk_w", some "Bearer x".data⟩ =
      GateOutcome.apiKeyPrincipal ⟨1, "sk_w", 7, true⟩ ∧
    token_required [⟨1, "sk_w", 7, true⟩] (fun _ => none) ⟨none, none⟩ =
      GateOutcome.err 401 "Token is missing" :=
  ⟨((gate_credential_order [⟨1, "sk_w", 7, true⟩] (fun _ => none)
      ⟨some "sk_w", some "Bearer x".data⟩).1 "sk_w" rfl).2.2
      ⟨1, "sk_w", 7, true⟩ rfl,
   (gate_credential_order [⟨1, "sk_w", 7, true⟩] (fun _ => none)
      ⟨none, none⟩).2.2 rfl (Or.inl rfl)⟩

/-! ## Claims about the OAuth state cache -/

/-- After deleting a state token the store no longer resolves it. -/
theorem storeLookup_storeDelete (store : StateStore) (s : String) :
    storeLookup (storeDelete store s) s = none := by
  unfold storeLookup storeDelete
  rw [Option.map_eq_none', List.find?_eq_none]
  intro x hx
  have hmem := List.of_mem_filter hx
  simp only [decide_eq_true_eq] at hmem ⊢
  exact hmem

/-- The branch structure of `redeemState`, with the success branch first. -/
theorem redeemState_eq (store : StateStore) (s t : String) :
    redeemState store s t =
      match storeLookup store s with
      | none => RedeemResult.rejected store 400 "Invalid or expired state token"
      | some stored =>
          if stored = t then RedeemResult.ok (storeDelete store s)
          else RedeemResult.rejected store 400 "redirect_uri does not match state" := by
  unfold redeemState
  cases storeLookup store s with
  | none => rfl
  | some stored =>
      by_cases he : stored = t
      · simp [he]
      · simp [he]

/-- C3: the state-validation block of `google_callback` rejects exactly
when the store does not bind the presented state token to the presented
callback target; a successful redemption deletes the entry, so a second
redeem of the same token against the resulting store — with any target —
is always rejected. -/
theorem redeem_reject_iff_single_use (store : StateStore) (s t : String) :
    ((redeemState store s t).isRejected = true ↔ storeLookup store s ≠ some t)
    ∧ (∀ store', redeemState store s t = RedeemResult.ok store' →
        store' = storeDelete store s ∧
        ∀ t', (redeemState store' s t').isRejected = true) := by
  constructor
  · rw [redeemState_eq]
    cases hl : storeLookup store s with
    | none => simp [RedeemResult.isRejected]
    | some stored =>
        by_cases he : stored = t
        · subst he
          simp [RedeemResult.isRejected]
        · simp [he, RedeemResult.isRejected, Ne.symm he]
  · intro store' hok
    rw [redeemState_eq] at hok
    split at hok
    · exact absurd hok (by simp)
    · split at hok
      · cases hok
        refine ⟨rfl, fun t' => ?_⟩
        rw [redeemState_eq, storeLookup_storeDelete]
        rfl
      · exact absurd hok (by simp)

/-- Witness for C3: a store binding `st1` to `app://cb`: redeeming with
the bound target succeeds, a second redeem of `st1` against the
resulting store is rejected, and redeeming an unknown token is
rejected. -/
theorem redeem_reject_iff_single_use_witness :
    (redeemState [("st1", "app://cb")] "st1" "app://cb").isRejected = false ∧
    (redeemState (storeDelete [("st1", "app://cb")] "st1") "st1" "app://cb").isRejected
      = true ∧
    (redeemState [("st1", "app://cb")] "st2" "app://cb").isRejected = true := by
  refine ⟨by decide, ?_, ?_⟩
  · exact ((redeem_reject_iff_single_use [("st1", "app://cb")] "st1" "app://cb").2
      (storeDelete [("st1", "app://cb")] "st1") (by decide)).2 "app://cb"
  · exact (redeem_reject_iff_single_use [("st1", "app://cb")] "st2" "app://cb").1.mpr
      (by decide)

/-- C9 counterexample: a redemption attempt for a known token that is
rejected for a callback-target mismatch does NOT consume the entry: the
token still resolves in the store afterwards, so the entry survives its
first redemption attempt. -/
theorem mismatch_reject_leaves_entry :
    (redeemState [("st1", "app://a")] "st1" "app://b").isRejected = true ∧
    storeLookup (redeemState [("st1", "app://a")] "st1" "app://b").store "st1" =
      some "app://a" := by
  constructor
  · rfl
  · rfl

/-- C9 amended: the entry is consumed exactly by the first successful
redemption attempt: a rejected attempt (unknown token or target
mismatch) leaves the store unchanged, while a successful attempt deletes
the entry so the token no longer resolves. -/
theorem redeem_consumes_only_on_success (store : StateStore) (s t : String) :
    (∀ st status msg,
        redeemState store s t = RedeemResult.rejected st status msg → st = store)
    ∧ (∀ store', redeemState store s t = RedeemResult.ok store' →
        storeLookup store' s = none) := by
  constructor
  · intro st status msg hrej
    rw [redeemState_eq] at hrej
    split at hrej
    · cases hrej; rfl
    · split at hrej
      · exact absurd hrej (by simp)
      · cases hrej; rfl
  · intro store' hok
    rw [redeemState_eq] at hok
    split at hok
    · exact absurd hok (by simp)
    · split at hok
      · cases hok
        exact storeLookup_storeDelete store s
      · exact absurd hok (by simp)

/-- Witness for C9 amended: a mismatch rejection returns the store
untouched; a successful redemption leaves a store in which the token no
longer resolves. -/
theorem redeem_consumes_only_on_success_witness :
    [("st1", "app://a")] = ([("st1", "app://a")] : StateStore) ∧
    storeLookup (storeDelete [("st1", "app://cb")] "st1") "st1" = none :=
  ⟨(redeem_consumes_only_on_success [("st1", "app://a")] "st1" "app://b").1
      [("st1", "app://a")] 400 "redirect_uri does not match state" (by decide),
   (redeem_consumes_only_on_success [("st1", "app://cb")] "st1" "app://cb").2
      (storeDelete [("st1", "app://cb")] "st1") (by decide)⟩

/-- C4: for every presented callback target not contained in the
comma-split `ALLOWED_MOBILE_REDIRECT_URIS` value, `google_init` rejects
with a 400 response and the state store it leaves behind is exactly the
store it started from — no entry is created. -/
theorem begin_rejects_unlisted (env state_token : String) (store : StateStore)
    (t : String) (h : t.data ∉ allowedUris env) :
    (google_init env state_token store (some t)).store = store ∧
    (google_init env state_token store (some t)).isRejectedWith 400 = true := by
  by_cases ht : t = ""
  · subst ht
    exact ⟨rfl, rfl⟩
  · simp only [google_init]
    rw [if_neg ht, if_pos h]
    exact ⟨rfl, rfl⟩

/-- Witness for C4: the target `evil://x` is not among
`app://cb,https://ok` and is rejected with the store untouched. -/
theorem begin_rejects_unlisted_witness :
    (google_init "app://cb,https://ok" "new" [("st1", "app://cb")]
        (some "evil://x")).store = [("st1", "app://cb")] ∧
    (google_init "app://cb,https://ok" "new" [("st1", "app://cb")]
        (some "evil://x")).isRejectedWith 400 = true :=
  begin_rejects_unlisted "app://cb,https://ok" "new" [("st1", "app://cb")]
    "evil://x" (by decide)

/-! ## Claims about the principal upsert -/

/-- `find?` skips a prefix in which nothing matches. -/
theorem find?_append_of_none {α : Type} (p : α → Bool) (l₁ l₂ : List α)
    (h : l₁.find? p = none) : (l₁ ++ l₂).find? p = l₂.find? p := by
  induction l₁ with
  | nil => rfl
  | cons a l ih =>
      cases hp : p a with
      | true => rw [List.find?_cons_of_pos _ hp] at h; cases h
      | false =>
          rw [List.find?_cons_of_neg _ (by simp [hp])] at h
          rw [List.cons_append, List.find?_cons_of_neg _ (by simp [hp])]
          exact ih h

/-- `updateFirst` skips a prefix in which nothing matches. -/
theorem updateFirst_append_of_none (p : UserRec → Bool) (f : UserRec → UserRec)
    (l₁ l₂ : List UserRec) (h : l₁.find? p = none) :
    updateFirst p f (l₁ ++ l₂) = l₁ ++ updateFirst p f l₂ := by
  induction l₁ with
  | nil => rfl
  | cons a l ih =>
      cases hp : p a with
      | true => rw [List.find?_cons_of_pos _ hp] at h; cases h
      | false =>
          rw [List.find?_cons_of_neg _ (by simp [hp])] at h
          rw [List.cons_append, updateFirst, if_neg (by simp [hp]), ih h]
          rfl

/-- C7: starting from a table with no user for email `e`, the first
federation creates exactly the row `⟨nextId, e, n1⟩` and the second
federation — same email, name `n2` — rewrites only that row's name: the
id and email are unchanged, every other row is untouched verbatim, and
the table holds exactly one row with email `e`. -/
theorem federate_twice_single_principal (db : UserDB) (e : String)
    (n1 n2 : Option String)
    (h : db.users.find? (fun u => u.email = e) = none) :
    upsert_user db e n1 =
      ((⟨db.users ++ [⟨db.nextId, e, n1⟩], db.nextId + 1⟩,
        ⟨db.nextId, e, n1⟩) : UserDB × UserRec) ∧
    upsert_user (⟨db.users ++ [⟨db.nextId, e, n1⟩], db.nextId + 1⟩ : UserDB) e n2 =
      ((⟨db.users ++ [⟨db.nextId, e, n2⟩], db.nextId + 1⟩,
        ⟨db.nextId, e, n2⟩) : UserDB × UserRec) ∧
    ((db.users ++ [(⟨db.nextId, e, n2⟩ : UserRec)]).filter
        (fun u => u.email = e)).length = 1 := by
  have hall : ∀ u ∈ db.users, ¬(u.email = e) := by
    intro u hu
    simpa using List.find?_eq_none.mp h u hu
  refine ⟨?_, ?_, ?_⟩
  · unfold upsert_user
    rw [h]
  · unfold upsert_user
    rw [find?_append_of_none _ _ _ h,
      List.find?_cons_of_pos _ (by simp)]
    rw [updateFirst_append_of_none _ _ _ _ h]
    rw [updateFirst, if_pos (by simp)]
  · rw [List.filter_append,
      List.filter_eq_nil_iff.mpr (by intro a ha; simpa using hall a ha)]
    simp [List.filter]

/-- Witness for C7: a concrete table with one unrelated user; federating
twice with `new@e.x` creates one row, then updates only its name. -/
theorem federate_twice_single_principal_witness :
    upsert_user ⟨[⟨1, "old@e.x", some "Old"⟩], 2⟩ "new@e.x" (some "N1") =
      (⟨[⟨1, "old@e.x", some "Old"⟩, ⟨2, "new@e.x", some "N1"⟩], 3⟩,
        ⟨2, "new@e.x", some "N1"⟩) ∧
    upsert_user ⟨[⟨1, "old@e.x", some "Old"⟩, ⟨2, "new@e.x", some "N1"⟩], 3⟩
        "new@e.x" (some "N2") =
      (⟨[⟨1, "old@e.x", some "Old"⟩, ⟨2, "new@e.x", some "N2"⟩], 3⟩,
        ⟨2, "new@e.x", some "N2"⟩) ∧
    (([⟨1, "old@e.x", some "Old"⟩, ⟨2, "new@e.x", some "N2"⟩] : List UserRec).filter
        (fun u => u.email = "new@e.x")).length = 1 :=
  federate_twice_single_principal ⟨[⟨1, "old@e.x", some "Old"⟩], 2⟩ "new@e.x"
    (some "N1") (some "N2") (by decide)

/-! ## Claims about bearer-credential extraction -/

/-- `replaceAll` deletes a leading occurrence of the pattern. -/
theorem replaceAll_append_left (pat rep s : List Char) (hne : pat ≠ []) :
    replaceAll pat rep (pat ++ s) = rep ++ replaceAll pat rep s := by
  obtain ⟨c, cs, rfl⟩ := List.exists_cons_of_ne_nil hne
  have hcond : (c :: cs) ≠ [] ∧ (c :: cs).isPrefixOf (c :: (cs ++ s)) := by
    refine ⟨by simp, ?_⟩
    rw [List.isPrefixOf_iff_prefix, ← List.cons_append]
    exact List.prefix_append _ _
  rw [List.cons_append, replaceAll, dif_pos hcond]
  congr 1
  rw [List.length_cons, List.drop_succ_cons, List.drop_left]

/-- `replaceAll` is the identity on a string in which the pattern does
not occur. -/
theorem replaceAll_of_not_occursIn (pat rep s : List Char)
    (h : occursIn pat s = false) : replaceAll pat rep s = s := by
  induction s with
  | nil => rw [replaceAll]
  | cons c rest ih =>
      rw [occursIn, Bool.or_eq_false_iff] at h
      rw [replaceAll, dif_neg]
      · rw [ih h.2]
      · rintro ⟨-, hpre⟩
        rw [h.1] at hpre
        cases hpre

/-- C10: with no `X-Api-Key` header, the gate extracts the bearer
credential by deleting every occurrence of `'Bearer '` from the
`Authorization` value (`replaceAll bearerChars []`); consequently a
bearer-free credential `tok` accepted by the verifier resolves the same
principal claims whether it is sent as `Bearer tok` or bare. -/
theorem gate_bearer_strip (db : List APIKeyRec)
    (dec : List Char → Option JwtPayload) (req : GateRequest)
    (hapi : req.xApiKey = none) :
    (∀ h, req.authorization = some h →
      token_required db dec req =
        (if replaceAll bearerChars [] h = [] then
          GateOutcome.err 401 "Token is missing"
         else
          match dec (replaceAll bearerChars [] h) with
          | none => GateOutcome.err 401 "Token is invalid or expired"
          | some p => GateOutcome.tokenPrincipal p))
    ∧ (∀ tok p, occursIn bearerChars tok = false → tok ≠ [] → dec tok = some p →
        token_required db dec { req with authorization := some (bearerChars ++ tok) } =
          GateOutcome.tokenPrincipal p
        ∧ token_required db dec { req with authorization := some tok } =
          GateOutcome.tokenPrincipal p) := by
  obtain ⟨x, a⟩ := req
  cases hapi
  constructor
  · intro h ha
    cases ha
    rfl
  · intro tok p hocc htok hdec
    have hstrip : replaceAll bearerChars [] tok = tok :=
      replaceAll_of_not_occursIn _ _ _ hocc
    have hfull : replaceAll bearerChars [] (bearerChars ++ tok) = tok := by
      rw [replaceAll_append_left _ _ _ (by decide), hstrip]
      rfl
    constructor
    · show token_required db dec ⟨none, some (bearerChars ++ tok)⟩ = _
      unfold token_required
      simp only [extractBearerToken, hfull, if_neg htok, hdec]
    · show token_required db dec ⟨none, some tok⟩ = _
      unfold token_required
      simp only [extractBearerToken, hstrip, if_neg htok, hdec]

/-- Witness for C10: the verifier accepts the 6-character credential
`tok123`; the gate resolves the same principal for
`Authorization: Bearer tok123` and for `Authorization: tok123`. -/
theorem gate_bearer_strip_witness :
    token_required [] (fun t => if t = "tok123".data then some ⟨1, "a@b.c", 0, 10⟩ else none)
      ⟨none, some (bearerChars ++ "tok123".data)⟩ =
      GateOutcome.tokenPrincipal ⟨1, "a@b.c", 0, 10⟩ ∧
    token_required [] (fun t => if t = "tok123".data then some ⟨1, "a@b.c", 0, 10⟩ else none)
      ⟨none, some "tok123".data⟩ =
      GateOutcome.tokenPrincipal ⟨1, "a@b.c", 0, 10⟩ :=
  (gate_bearer_strip []
      (fun t => if t = "tok123".data then some ⟨1, "a@b.c", 0, 10⟩ else none)
      ⟨none, some "tok123".data⟩ rfl).2 "tok123".data ⟨1, "a@b.c", 0, 10⟩
    (by decide) (by decide) (by simp)
